import Mathlib

/-!
Shallow embedding of the LearningSuite MCP server (src/index.ts and
src/api-client.ts): the tool catalog, the dispatcher `handleToolCall`, the
protocol request handlers (`ListTools` / `CallTool`), and the HTTP request
builder / response handler of `LearningSuiteClient.request`.

Modelling conventions:
* JSON values are the mutual inductive `Json` / `JList` / `JFields`
  (numbers are modelled as integers; no claim involves non-integer numbers).
* A JavaScript object whose field values may be `undefined` is modelled as
  `List (String × Option Json)` (`none` = the value `undefined`); an argument
  map coming from the protocol is `List (String × Json)` (present keys only),
  and a missing key surfaces as `none` from `lookupArg`, exactly like property
  access on a JS object.
* TypeScript type annotations are erased at runtime, so the dispatcher's
  `args.x as string` casts perform no conversion: values flow raw into query
  maps and bodies, and are stringified only where a template literal
  (`${...}`) or `String(...)` does so in the source.  Path parameters are
  therefore modelled as `String` (the template-literal stringification
  `interp` is applied at the dispatch site), while query/body parameters stay
  `Option Json`.
* The external collaborators — the network round trip (`fetch`), the JSON
  parser of the JS engine (`JSON.parse`) and the message of the SyntaxError
  it throws on failure — are parameters, collected in `JsRuntime`.
* A thrown JS value is `Thrown`: either an `Error` object (carrying its
  `message`) or an arbitrary non-`Error` value.
* `request` additionally returns the list of HTTP requests it issues, so
  theorems can speak about what is sent over the wire.
-/

-- ==================== JSON values ====================

mutual

inductive Json where
  | null : Json
  | bool : Bool → Json
  | num : Int → Json
  | str : String → Json
  | arr : JList → Json
  | obj : JFields → Json

inductive JList where
  | nil : JList
  | cons : Json → JList → JList

inductive JFields where
  | nil : JFields
  | cons : String → Json → JFields → JFields

end

def JList.ofList : List Json → JList
  | [] => .nil
  | x :: xs => .cons x (JList.ofList xs)

def JFields.ofList : List (String × Json) → JFields
  | [] => .nil
  | kv :: kvs => .cons kv.1 kv.2 (JFields.ofList kvs)

/-- Array literal helper: `Json.arrL [a, b]` is the JSON array `[a, b]`. -/
def Json.arrL (xs : List Json) : Json := .arr (JList.ofList xs)

/-- Object literal helper: `Json.objL [(k, v)]` is the JSON object `{k: v}`. -/
def Json.objL (kvs : List (String × Json)) : Json := .obj (JFields.ofList kvs)

-- ==================== JS stringification (String(v), `${v}`) ====================

mutual

/-- `String(v)` / template-literal stringification of a JSON value, as
JavaScript performs it: numbers and booleans take their textual form, arrays
join their elements with `,` (null elements become the empty string), plain
objects become `[object Object]`. -/
def jsToStringElem : Json → String
  | .null => ""
  | .bool b => cond b "true" "false"
  | .num n => toString n
  | .str s => s
  | .arr xs => jsToStringList xs
  | .obj _ => "[object Object]"

def jsToStringList : JList → String
  | .nil => ""
  | .cons x .nil => jsToStringElem x
  | .cons x (.cons y tl) => jsToStringElem x ++ "," ++ jsToStringList (.cons y tl)

end

/-- `String(v)` at the top level (`null` prints as `"null"` there, unlike as
an array element). -/
def jsToString : Json → String
  | .null => "null"
  | .bool b => cond b "true" "false"
  | .num n => toString n
  | .str s => s
  | .arr xs => jsToStringList xs
  | .obj _ => "[object Object]"

-- ==================== JSON.stringify ====================

def hexDigit (n : Nat) : Char :=
  if n < 10 then Char.ofNat (48 + n) else Char.ofNat (55 + n)

/-- JSON string escaping as `JSON.stringify` performs it. -/
def escapeJsonChar (c : Char) : String :=
  if c = '"' then "\\\""
  else if c = '\\' then "\\\\"
  else if c = Char.ofNat 8 then "\\b"
  else if c = Char.ofNat 9 then "\\t"
  else if c = Char.ofNat 10 then "\\n"
  else if c = Char.ofNat 12 then "\\f"
  else if c = Char.ofNat 13 then "\\r"
  else if c.toNat < 32 then
    "\\u00" ++ String.singleton (hexDigit (c.toNat / 16)) ++
      String.singleton (hexDigit (c.toNat % 16))
  else String.singleton c

def escapeJsonString (s : String) : String :=
  "\"" ++ String.join (s.toList.map escapeJsonChar) ++ "\""

mutual

/-- Compact `JSON.stringify(v)` (no indentation), used for request bodies. -/
def Json.serialize : Json → String
  | .null => "null"
  | .bool b => cond b "true" "false"
  | .num n => toString n
  | .str s => escapeJsonString s
  | .arr xs => "[" ++ JList.serialize xs ++ "]"
  | .obj kvs => "\x7b" ++ JFields.serialize kvs ++ "\x7d"

def JList.serialize : JList → String
  | .nil => ""
  | .cons x .nil => Json.serialize x
  | .cons x (.cons y tl) => Json.serialize x ++ "," ++ JList.serialize (.cons y tl)

def JFields.serialize : JFields → String
  | .nil => ""
  | .cons k v .nil => escapeJsonString k ++ ":" ++ Json.serialize v
  | .cons k v (.cons k2 v2 tl) =>
      escapeJsonString k ++ ":" ++ Json.serialize v ++ "," ++
        JFields.serialize (.cons k2 v2 tl)

end

def indentStr (n : Nat) : String := String.mk (List.replicate n ' ')

mutual

/-- `JSON.stringify(v, null, 2)` — pretty printing with a two-space indent,
used for the text block of a success Result Envelope.  The first argument is
the indentation level of the line the value starts on. -/
def Json.prettyAux : Nat → Json → String
  | _, .null => "null"
  | _, .bool b => cond b "true" "false"
  | _, .num n => toString n
  | _, .str s => escapeJsonString s
  | _, .arr .nil => "[]"
  | ind, .arr (.cons x tl) =>
      "[\n" ++ JList.prettyAux (ind + 2) (.cons x tl) ++ "\n" ++
        indentStr ind ++ "]"
  | _, .obj .nil => "\x7b\x7d"
  | ind, .obj (.cons k v tl) =>
      "\x7b\n" ++ JFields.prettyAux (ind + 2) (.cons k v tl) ++ "\n" ++
        indentStr ind ++ "\x7d"

def JList.prettyAux : Nat → JList → String
  | _, .nil => ""
  | ind, .cons x .nil => indentStr ind ++ Json.prettyAux ind x
  | ind, .cons x (.cons y tl) =>
      indentStr ind ++ Json.prettyAux ind x ++ ",\n" ++
        JList.prettyAux ind (.cons y tl)

def JFields.prettyAux : Nat → JFields → String
  | _, .nil => ""
  | ind, .cons k v .nil =>
      indentStr ind ++ escapeJsonString k ++ ": " ++ Json.prettyAux ind v
  | ind, .cons k v (.cons k2 v2 tl) =>
      indentStr ind ++ escapeJsonString k ++ ": " ++ Json.prettyAux ind v ++
        ",\n" ++ JFields.prettyAux ind (.cons k2 v2 tl)

end

/-- `JSON.stringify(result, null, 2)` as used by the CallTool handler. -/
def stringifyPretty (j : Json) : String := Json.prettyAux 0 j

-- ==================== URLSearchParams serialization ====================

/-- UTF-8 encoding of a code point, byte values as `Nat`. -/
def utf8Bytes (n : Nat) : List Nat :=
  if n < 0x80 then [n]
  else if n < 0x800 then [0xC0 + n / 64, 0x80 + n % 64]
  else if n < 0x10000 then
    [0xE0 + n / 4096, 0x80 + n / 64 % 64, 0x80 + n % 64]
  else
    [0xF0 + n / 262144, 0x80 + n / 4096 % 64, 0x80 + n / 64 % 64, 0x80 + n % 64]

/-- One byte under the application/x-www-form-urlencoded serializer used by
`URLSearchParams.toString()`: alphanumerics and `*-._` pass through, space
becomes `+`, everything else is percent-encoded. -/
def formEncodeByte (b : Nat) : String :=
  if b = 42 ∨ b = 45 ∨ b = 46 ∨ b = 95 ∨ (48 ≤ b ∧ b ≤ 57) ∨
      (65 ≤ b ∧ b ≤ 90) ∨ (97 ≤ b ∧ b ≤ 122) then
    String.singleton (Char.ofNat b)
  else if b = 32 then "+"
  else "%" ++ String.singleton (hexDigit (b / 16)) ++
    String.singleton (hexDigit (b % 16))

def formEncode (s : String) : String :=
  String.join (s.toList.map (fun c => String.join ((utf8Bytes c.toNat).map formEncodeByte)))

-- ==================== HTTP layer ====================

structure HttpRequest where
  method : String
  url : String
  headers : List (String × String)
  body : Option String
deriving DecidableEq

structure HttpResponse where
  status : Nat
  body : String
deriving DecidableEq

/-- A thrown JavaScript value: an `Error` object (carrying its `message`) or
any other value. -/
inductive Thrown where
  | err : String → Thrown
  | val : Json → Thrown

/-- The externals the code runs against: `JSON.parse` (with `none` standing
for a throw, and `parseErrMsg` the engine's SyntaxError message for a given
input) and the network round trip performed by `fetch`. -/
structure JsRuntime where
  parse : String → Option Json
  parseErrMsg : String → String
  fetch : HttpRequest → HttpResponse

/-- A JS object whose values may be `undefined` (`none`). -/
abbrev JsObj := List (String × Option Json)

def BASE_URL : String := "https://api.learningsuite.io/api/v1"

/-- The loop body of `request`: `Object.entries(queryParams)` keeping only
entries whose value is not `undefined`, each value put through `String(...)`. -/
def definedQueryPairs (qp : JsObj) : List (String × String) :=
  qp.filterMap (fun kv => kv.2.map (fun v => (kv.1, jsToString v)))

/-- `URLSearchParams.toString()` over the retained pairs. -/
def queryString (qp : JsObj) : String :=
  String.intercalate "&"
    ((definedQueryPairs qp).map (fun kv => formEncode kv.1 ++ "=" ++ formEncode kv.2))

/-- URL construction of `request`: the `?` is appended only when the
serialized query string is non-empty. -/
def requestUrl (path : String) (queryParams : Option JsObj) : String :=
  BASE_URL ++ path ++
    (match queryParams with
     | none => ""
     | some qp => if queryString qp = "" then "" else "?" ++ queryString qp)

/-- `JSON.stringify(body)` for a top-level object body: fields whose value is
`undefined` are skipped. -/
def stringifyBody (fields : JsObj) : String :=
  "\x7b" ++
    String.intercalate ","
      (fields.filterMap
        (fun kv => kv.2.map (fun v => escapeJsonString kv.1 ++ ":" ++ Json.serialize v))) ++
    "\x7d"

structure LearningSuiteClient where
  apiKey : String

/-- The request object handed to `fetch`: method, URL with query string,
fixed headers, and a JSON body attached only when a body was supplied and the
method is POST, PUT or DELETE. -/
def buildRequest (c : LearningSuiteClient) (method path : String)
    (body : Option JsObj) (queryParams : Option JsObj) : HttpRequest :=
  { method := method
    url := requestUrl path queryParams
    headers := [("Content-Type", "application/json"), ("X-API-Key", c.apiKey)]
    body :=
      match body with
      | some b =>
          if method = "POST" ∨ method = "PUT" ∨ method = "DELETE" then
            some (stringifyBody b)
          else none
      | none => none }

/-- Response handling of `request`: non-2xx throws `API Error <status>:
<body>`; a 2xx with empty body yields `{}`; otherwise the body is handed to
`JSON.parse`, whose failure propagates as a thrown SyntaxError. -/
def handleResponse (rt : JsRuntime) (resp : HttpResponse) : Except Thrown Json :=
  if resp.status < 200 ∨ 300 ≤ resp.status then
    .error (.err ("API Error " ++ toString resp.status ++ ": " ++ resp.body))
  else if resp.body = "" then .ok (Json.objL [])
  else
    match rt.parse resp.body with
    | some j => .ok j
    | none => .error (.err (rt.parseErrMsg resp.body))

/-- `LearningSuiteClient.request`, instrumented to also return the list of
HTTP requests it issues (always exactly one). -/
def LearningSuiteClient.request (c : LearningSuiteClient) (rt : JsRuntime)
    (method path : String) (body : Option JsObj) (queryParams : Option JsObj) :
    Except Thrown Json × List HttpRequest :=
  let req := buildRequest c method path body queryParams
  (handleResponse rt (rt.fetch req), [req])


-- ==================== LearningSuiteClient operations ====================
-- Each method mirrors the corresponding method of api-client.ts.  Path
-- parameters arrive already stringified (the template literal `${...}`
-- applies `String(...)`; see `interp` below); query and body values stay raw.

namespace LearningSuiteClient

variable (c : LearningSuiteClient) (rt : JsRuntime)

def checkAuth := c.request rt "GET" "/auth" none none

def getMembers (params : Option JsObj) :=
  c.request rt "GET" "/members" none params

def createMember (data : JsObj) :=
  c.request rt "POST" "/members" (some data) none

def getMemberByEmail (email includeGroups : Option Json) :=
  c.request rt "GET" "/members/by-email" none
    (some [("email", email), ("includeGroups", includeGroups)])

def getMember (memberId : String) (includeGroups : Option Json) :=
  c.request rt "GET" ("/members/" ++ memberId) none
    (some [("includeGroups", includeGroups)])

def updateMember (memberId : String) (data : JsObj) :=
  c.request rt "PUT" ("/members/" ++ memberId) (some data) none

def deleteMember (memberId : String) :=
  c.request rt "DELETE" ("/members/" ++ memberId) none none

def getMemberCourses (memberId : String) (params : Option JsObj) :=
  c.request rt "GET" ("/members/" ++ memberId ++ "/courses") none params

def addMemberToCourses (memberId : String) (data : JsObj) :=
  c.request rt "PUT" ("/members/" ++ memberId ++ "/courses") (some data) none

def removeMemberFromCourses (memberId : String) (courseIds : Option Json) :=
  c.request rt "DELETE" ("/members/" ++ memberId ++ "/courses")
    (some [("courseIds", courseIds)]) none

def getMemberCourseInfo (memberId courseId : String) (dateForAccessCheck : Option Json) :=
  c.request rt "GET" ("/members/" ++ memberId ++ "/course-info/" ++ courseId) none
    (some [("dateForAccessCheck", dateForAccessCheck)])

def getMemberBundles (memberId : String) :=
  c.request rt "GET" ("/members/" ++ memberId ++ "/bundles") none none

def addMemberToBundles (memberId : String) (data : JsObj) :=
  c.request rt "PUT" ("/members/" ++ memberId ++ "/bundles") (some data) none

def removeMemberFromBundles (memberId : String) (bundleIds : Option Json) :=
  c.request rt "DELETE" ("/members/" ++ memberId ++ "/bundles")
    (some [("bundleIds", bundleIds)]) none

def getTeamMembers (params : Option JsObj) :=
  c.request rt "GET" "/team-members" none params

def getTeamMemberByEmail (email : Option Json) :=
  c.request rt "GET" "/team-members/by-email" none (some [("email", email)])

def getTeamMember (userId : String) :=
  c.request rt "GET" ("/team-members/" ++ userId) none none

def getGroups (params : Option JsObj) :=
  c.request rt "GET" "/groups" none params

def createGroup (data : JsObj) :=
  c.request rt "POST" "/groups" (some data) none

def findGroupsByName (name : Option Json) :=
  c.request rt "GET" "/groups/find-by-name" none (some [("name", name)])

def deleteGroup (groupId : String) :=
  c.request rt "DELETE" ("/group/" ++ groupId) none none

def getGroupCourses (groupId : String) :=
  c.request rt "GET" ("/group/" ++ groupId ++ "/courses") none none

def addCoursesToGroup (groupId : String) (courseIds : Option Json) :=
  c.request rt "PUT" ("/group/" ++ groupId ++ "/courses")
    (some [("courseIds", courseIds)]) none

def removeCoursesFromGroup (groupId : String) (courseIds : Option Json) :=
  c.request rt "DELETE" ("/group/" ++ groupId ++ "/courses")
    (some [("courseIds", courseIds)]) none

def addBundlesToGroup (groupId : String) (bundleIds : Option Json) :=
  c.request rt "PUT" ("/group/" ++ groupId ++ "/bundles")
    (some [("bundleIds", bundleIds)]) none

def addMembersToGroups (data : JsObj) :=
  c.request rt "PUT" "/add-members-to-groups" (some data) none

def removeMembersFromGroups (data : JsObj) :=
  c.request rt "DELETE" "/remove-members-from-groups" (some data) none

def getPublishedCourses := c.request rt "GET" "/courses/published" none none

def getCourseModules (courseId : String) :=
  c.request rt "GET" ("/courses/" ++ courseId ++ "/modules") none none

def getCourseModulesForMember (courseId memberId : String) :=
  c.request rt "GET" ("/courses/" ++ courseId ++ "/modules/" ++ memberId) none none

def getCourseMembers (courseId : String) (params : Option JsObj) :=
  c.request rt "GET" ("/courses/" ++ courseId ++ "/members") none params

def getCourseAccessRequests (courseId : String) (params : Option JsObj) :=
  c.request rt "GET" ("/courses/" ++ courseId ++ "/access-requests") none params

def getCourseSubmissions (courseId : String) (params : Option JsObj) :=
  c.request rt "GET" ("/courses/" ++ courseId ++ "/submissions") none params

def createLesson (courseId sectionId : String) (data : JsObj) :=
  c.request rt "POST" ("/courses/" ++ courseId ++ "/create-lesson/" ++ sectionId)
    (some data) none

def getModuleSections (moduleId : String) :=
  c.request rt "GET" ("/modules/" ++ moduleId ++ "/sections") none none

def getModuleLessons (moduleId : String) :=
  c.request rt "GET" ("/modules/" ++ moduleId ++ "/lessons") none none

def createModuleUnlockOverride (data : JsObj) :=
  c.request rt "POST" "/create-module-unlock-override" (some data) none

def getBundles := c.request rt "GET" "/bundles" none none

def getBundleMembers (bundleId : String) (params : Option JsObj) :=
  c.request rt "GET" ("/bundle/" ++ bundleId ++ "/members") none params

def getHubs := c.request rt "GET" "/hubs" none none

def createHub (data : JsObj) := c.request rt "POST" "/hub" (some data) none

def getHubTemplates := c.request rt "GET" "/hub-templates" none none

def getHubTemplateVariables (hubTemplateId : String) :=
  c.request rt "GET" ("/hub-template/" ++ hubTemplateId ++ "/variables") none none

def addHubAccesses (hubId : String) (data : JsObj) :=
  c.request rt "PUT" ("/hub/" ++ hubId ++ "/access") (some data) none

def removeHubAccesses (hubId : String) (data : JsObj) :=
  c.request rt "DELETE" ("/hub/" ++ hubId ++ "/access") (some data) none

def getCommunityAreas := c.request rt "GET" "/community/areas" none none

def getCommunityForums (params : Option JsObj) :=
  c.request rt "GET" "/community/forums" none params

def getCommunityPosts (params : Option JsObj) :=
  c.request rt "GET" "/community/posts" none params

def commentOnPost (postId : String) (data : JsObj) :=
  c.request rt "POST" ("/community/posts/" ++ postId ++ "/comments") (some data) none

def getCommunityBadges := c.request rt "GET" "/community/badges" none none

def assignBadgesToUser (data : JsObj) :=
  c.request rt "PUT" "/community/badges/user" (some data) none

def removeBadgesFromUser (data : JsObj) :=
  c.request rt "DELETE" "/community/badges/user" (some data) none

def getPopups (params : Option JsObj) :=
  c.request rt "GET" "/popups" none params

def getPopup (popupId : String) :=
  c.request rt "GET" ("/popups/" ++ popupId) none none

def triggerPopup (popupId memberId : String) :=
  c.request rt "POST" ("/popups/" ++ popupId ++ "/trigger/" ++ memberId) none none

def removePopupTrigger (popupId memberId : String) :=
  c.request rt "DELETE" ("/popups/" ++ popupId ++ "/trigger/" ++ memberId) none none

def sendPushNotifications (data : JsObj) :=
  c.request rt "POST" "/user/push-notifications/send" (some data) none

def getRoles := c.request rt "GET" "/user/roles" none none

def getWebhookSubscriptions :=
  c.request rt "GET" "/webhooks/subscription" none none

def createWebhookSubscription (data : JsObj) :=
  c.request rt "POST" "/webhooks/subscription" (some data) none

def getWebhookSubscription (subscriptionId : String) :=
  c.request rt "GET" ("/webhooks/subscription/" ++ subscriptionId) none none

def updateWebhookSubscription (subscriptionId : String) (data : JsObj) :=
  c.request rt "PUT" ("/webhooks/subscription/" ++ subscriptionId) (some data) none

def deleteWebhookSubscription (subscriptionId : String) :=
  c.request rt "DELETE" ("/webhooks/subscription/" ++ subscriptionId) none none

def getWebhookSampleData (eventType : String) :=
  c.request rt "GET" ("/webhooks/sample-data/" ++ eventType) none none

end LearningSuiteClient

-- ==================== Tool catalog ====================

/-- One entry of the `tools` array: name, description and declarative input
schema. -/
structure ToolDescriptor where
  name : String
  description : String
  inputSchema : Json

def tools : List ToolDescriptor := [
  ⟨"learningsuite_check_auth",
    "Check if the API key is valid and get authorization info",
    Json.objL [("type", Json.str "object"), ("properties", Json.objL []), ("required", Json.arrL [])]⟩,
  ⟨"learningsuite_list_members",
    "Get all members with optional filtering and pagination",
    Json.objL [("type", Json.str "object"), ("properties", Json.objL [("includeGroups", Json.objL [("type", Json.str "boolean"), ("description", Json.str "Include groups the member is part of")]), ("days_not_logged_in_gte", Json.objL [("type", Json.str "number"), ("description", Json.str "Minimum days since last login")]), ("include_never_logged_in", Json.objL [("type", Json.str "boolean"), ("description", Json.str "Include users who never logged in")]), ("limit", Json.objL [("type", Json.str "number"), ("description", Json.str "Maximum number of members to return (default: 1000)")]), ("offset", Json.objL [("type", Json.str "number"), ("description", Json.str "Number of members to skip for pagination")])]), ("required", Json.arrL [])]⟩,
  ⟨"learningsuite_create_member",
    "Create a new member in LearningSuite",
    Json.objL [("type", Json.str "object"), ("properties", Json.objL [("email", Json.objL [("type", Json.str "string"), ("description", Json.str "Member email address")]), ("firstName", Json.objL [("type", Json.str "string"), ("description", Json.str "First name")]), ("lastName", Json.objL [("type", Json.str "string"), ("description", Json.str "Last name")]), ("phone", Json.objL [("type", Json.str "string"), ("description", Json.str "Phone number")]), ("about", Json.objL [("type", Json.str "string"), ("description", Json.str "About text")]), ("position", Json.objL [("type", Json.str "string"), ("description", Json.str "Position/title")]), ("city", Json.objL [("type", Json.str "string"), ("description", Json.str "City")]), ("password", Json.objL [("type", Json.str "string"), ("description", Json.str "Initial password")]), ("disableLoginEmail", Json.objL [("type", Json.str "boolean"), ("description", Json.str "Do not send welcome email")]), ("doNotRequirePasswordChange", Json.objL [("type", Json.str "boolean"), ("description", Json.str "Do not require password change on first login")]), ("locale", Json.objL [("type", Json.str "string"), ("enum", Json.arrL [Json.str "de", Json.str "en"]), ("description", Json.str "Language setting")]), ("ignoreIfAlreadyExists", Json.objL [("type", Json.str "boolean"), ("description", Json.str "Return existing member if email exists")])]), ("required", Json.arrL [Json.str "email", Json.str "firstName", Json.str "lastName"])]⟩,
  ⟨"learningsuite_get_member",
    "Get a member by ID",
    Json.objL [("type", Json.str "object"), ("properties", Json.objL [("memberId", Json.objL [("type", Json.str "string"), ("description", Json.str "Member ID")]), ("includeGroups", Json.objL [("type", Json.str "boolean"), ("description", Json.str "Include groups the member is part of")])]), ("required", Json.arrL [Json.str "memberId"])]⟩,
  ⟨"learningsuite_get_member_by_email",
    "Get a member by email address",
    Json.objL [("type", Json.str "object"), ("properties", Json.objL [("email", Json.objL [("type", Json.str "string"), ("description", Json.str "Member email address")]), ("includeGroups", Json.objL [("type", Json.str "boolean"), ("description", Json.str "Include groups the member is part of")])]), ("required", Json.arrL [Json.str "email"])]⟩,
  ⟨"learningsuite_update_member",
    "Update a member\u0027s information",
    Json.objL [("type", Json.str "object"), ("properties", Json.objL [("memberId", Json.objL [("type", Json.str "string"), ("description", Json.str "Member ID")]), ("enabled", Json.objL [("type", Json.str "boolean"), ("description", Json.str "Enable/disable member")]), ("firstName", Json.objL [("type", Json.str "string"), ("description", Json.str "First name")]), ("lastName", Json.objL [("type", Json.str "string"), ("description", Json.str "Last name")]), ("phone", Json.objL [("type", Json.str "string"), ("description", Json.str "Phone number")]), ("about", Json.objL [("type", Json.str "string"), ("description", Json.str "About text")]), ("position", Json.objL [("type", Json.str "string"), ("description", Json.str "Position/title")]), ("city", Json.objL [("type", Json.str "string"), ("description", Json.str "City")]), ("email", Json.objL [("type", Json.str "string"), ("description", Json.str "New email address")]), ("locale", Json.objL [("type", Json.str "string"), ("enum", Json.arrL [Json.str "de", Json.str "en"]), ("description", Json.str "Language setting")])]), ("required", Json.arrL [Json.str "memberId"])]⟩,
  ⟨"learningsuite_delete_member",
    "Delete a member",
    Json.objL [("type", Json.str "object"), ("properties", Json.objL [("memberId", Json.objL [("type", Json.str "string"), ("description", Json.str "Member ID")])]), ("required", Json.arrL [Json.str "memberId"])]⟩,
  ⟨"learningsuite_get_member_courses",
    "Get all courses for a member with access and progress info",
    Json.objL [("type", Json.str "object"), ("properties", Json.objL [("memberId", Json.objL [("type", Json.str "string"), ("description", Json.str "Member ID")]), ("dateForAccessCheck", Json.objL [("type", Json.str "string"), ("description", Json.str "Date for access check (ISO format)")]), ("limit", Json.objL [("type", Json.str "number"), ("description", Json.str "Maximum courses to return")]), ("offset", Json.objL [("type", Json.str "number"), ("description", Json.str "Offset for pagination")])]), ("required", Json.arrL [Json.str "memberId"])]⟩,
  ⟨"learningsuite_add_member_to_courses",
    "Add a member to one or more courses",
    Json.objL [("type", Json.str "object"), ("properties", Json.objL [("memberId", Json.objL [("type", Json.str "string"), ("description", Json.str "Member ID")]), ("courseIds", Json.objL [("type", Json.str "array"), ("items", Json.objL [("type", Json.str "string")]), ("description", Json.str "Array of course IDs")]), ("accessGivenAt", Json.objL [("type", Json.str "string"), ("description", Json.str "When access was given (ISO format)")]), ("disableAccessNotificationEmail", Json.objL [("type", Json.str "boolean"), ("description", Json.str "Do not send access notification email")]), ("sendLoginLinkInCourseEmail", Json.objL [("type", Json.str "boolean"), ("description", Json.str "Include login link in course email")])]), ("required", Json.arrL [Json.str "memberId", Json.str "courseIds"])]⟩,
  ⟨"learningsuite_remove_member_from_courses",
    "Remove a member from one or more courses",
    Json.objL [("type", Json.str "object"), ("properties", Json.objL [("memberId", Json.objL [("type", Json.str "string"), ("description", Json.str "Member ID")]), ("courseIds", Json.objL [("type", Json.str "array"), ("items", Json.objL [("type", Json.str "string")]), ("description", Json.str "Array of course IDs")])]), ("required", Json.arrL [Json.str "memberId", Json.str "courseIds"])]⟩,
  ⟨"learningsuite_get_member_course_info",
    "Get access and progress info for a member in a specific course",
    Json.objL [("type", Json.str "object"), ("properties", Json.objL [("memberId", Json.objL [("type", Json.str "string"), ("description", Json.str "Member ID")]), ("courseId", Json.objL [("type", Json.str "string"), ("description", Json.str "Course ID")]), ("dateForAccessCheck", Json.objL [("type", Json.str "string"), ("description", Json.str "Date for access check (ISO format)")])]), ("required", Json.arrL [Json.str "memberId", Json.str "courseId"])]⟩,
  ⟨"learningsuite_get_member_bundles",
    "Get all bundles of a member with access information",
    Json.objL [("type", Json.str "object"), ("properties", Json.objL [("memberId", Json.objL [("type", Json.str "string"), ("description", Json.str "Member ID")])]), ("required", Json.arrL [Json.str "memberId"])]⟩,
  ⟨"learningsuite_add_member_to_bundles",
    "Add a member to one or more bundles",
    Json.objL [("type", Json.str "object"), ("properties", Json.objL [("memberId", Json.objL [("type", Json.str "string"), ("description", Json.str "Member ID")]), ("bundles", Json.objL [("type", Json.str "array"), ("items", Json.objL [("type", Json.str "string")]), ("description", Json.str "Array of bundle IDs")]), ("accessGivenAtOverride", Json.objL [("type", Json.str "string"), ("description", Json.str "Override access start date (ISO format)")]), ("accessUntilOverride", Json.objL [("type", Json.str "string"), ("description", Json.str "Override access end date (ISO format)")]), ("unlimitedAccess", Json.objL [("type", Json.str "boolean"), ("description", Json.str "Grant unlimited access")]), ("disableAccessNotificationEmail", Json.objL [("type", Json.str "boolean"), ("description", Json.str "Do not send access notification email")])]), ("required", Json.arrL [Json.str "memberId", Json.str "bundles"])]⟩,
  ⟨"learningsuite_remove_member_from_bundles",
    "Remove a member from one or more bundles",
    Json.objL [("type", Json.str "object"), ("properties", Json.objL [("memberId", Json.objL [("type", Json.str "string"), ("description", Json.str "Member ID")]), ("bundleIds", Json.objL [("type", Json.str "array"), ("items", Json.objL [("type", Json.str "string")]), ("description", Json.str "Array of bundle IDs")])]), ("required", Json.arrL [Json.str "memberId", Json.str "bundleIds"])]⟩,
  ⟨"learningsuite_list_team_members",
    "Get team members (users with admin zone access)",
    Json.objL [("type", Json.str "object"), ("properties", Json.objL [("limit", Json.objL [("type", Json.str "number"), ("description", Json.str "Maximum to return (max 100)")]), ("offset", Json.objL [("type", Json.str "number"), ("description", Json.str "Offset for pagination")])]), ("required", Json.arrL [])]⟩,
  ⟨"learningsuite_get_team_member",
    "Get a team member by ID",
    Json.objL [("type", Json.str "object"), ("properties", Json.objL [("userId", Json.objL [("type", Json.str "string"), ("description", Json.str "User ID")])]), ("required", Json.arrL [Json.str "userId"])]⟩,
  ⟨"learningsuite_get_team_member_by_email",
    "Get a team member by email",
    Json.objL [("type", Json.str "object"), ("properties", Json.objL [("email", Json.objL [("type", Json.str "string"), ("description", Json.str "Email address")])]), ("required", Json.arrL [Json.str "email"])]⟩,
  ⟨"learningsuite_list_groups",
    "Get all groups",
    Json.objL [("type", Json.str "object"), ("properties", Json.objL [("limit", Json.objL [("type", Json.str "number"), ("description", Json.str "Maximum to return")]), ("offset", Json.objL [("type", Json.str "number"), ("description", Json.str "Offset for pagination")])]), ("required", Json.arrL [])]⟩,
  ⟨"learningsuite_create_group",
    "Create a new group",
    Json.objL [("type", Json.str "object"), ("properties", Json.objL [("name", Json.objL [("type", Json.str "string"), ("description", Json.str "Group name")]), ("description", Json.objL [("type", Json.str "string"), ("description", Json.str "Group description")])]), ("required", Json.arrL [Json.str "name"])]⟩,
  ⟨"learningsuite_find_groups_by_name",
    "Find groups by name",
    Json.objL [("type", Json.str "object"), ("properties", Json.objL [("name", Json.objL [("type", Json.str "string"), ("description", Json.str "Group name to search for")])]), ("required", Json.arrL [Json.str "name"])]⟩,
  ⟨"learningsuite_delete_group",
    "Delete a group",
    Json.objL [("type", Json.str "object"), ("properties", Json.objL [("groupId", Json.objL [("type", Json.str "string"), ("description", Json.str "Group ID")])]), ("required", Json.arrL [Json.str "groupId"])]⟩,
  ⟨"learningsuite_get_group_courses",
    "Get all courses of a group",
    Json.objL [("type", Json.str "object"), ("properties", Json.objL [("groupId", Json.objL [("type", Json.str "string"), ("description", Json.str "Group ID")])]), ("required", Json.arrL [Json.str "groupId"])]⟩,
  ⟨"learningsuite_add_courses_to_group",
    "Add courses to a group",
    Json.objL [("type", Json.str "object"), ("properties", Json.objL [("groupId", Json.objL [("type", Json.str "string"), ("description", Json.str "Group ID")]), ("courseIds", Json.objL [("type", Json.str "array"), ("items", Json.objL [("type", Json.str "string")]), ("description", Json.str "Array of course IDs")])]), ("required", Json.arrL [Json.str "groupId", Json.str "courseIds"])]⟩,
  ⟨"learningsuite_remove_courses_from_group",
    "Remove courses from a group",
    Json.objL [("type", Json.str "object"), ("properties", Json.objL [("groupId", Json.objL [("type", Json.str "string"), ("description", Json.str "Group ID")]), ("courseIds", Json.objL [("type", Json.str "array"), ("items", Json.objL [("type", Json.str "string")]), ("description", Json.str "Array of course IDs")])]), ("required", Json.arrL [Json.str "groupId", Json.str "courseIds"])]⟩,
  ⟨"learningsuite_add_bundles_to_group",
    "Add bundles to a group",
    Json.objL [("type", Json.str "object"), ("properties", Json.objL [("groupId", Json.objL [("type", Json.str "string"), ("description", Json.str "Group ID")]), ("bundleIds", Json.objL [("type", Json.str "array"), ("items", Json.objL [("type", Json.str "string")]), ("description", Json.str "Array of bundle IDs")])]), ("required", Json.arrL [Json.str "groupId", Json.str "bundleIds"])]⟩,
  ⟨"learningsuite_add_members_to_groups",
    "Add multiple members to multiple groups (batch operation)",
    Json.objL [("type", Json.str "object"), ("properties", Json.objL [("memberIds", Json.objL [("type", Json.str "array"), ("items", Json.objL [("type", Json.str "string")]), ("description", Json.str "Array of member IDs")]), ("groupIds", Json.objL [("type", Json.str "array"), ("items", Json.objL [("type", Json.str "string")]), ("description", Json.str "Array of group IDs")])]), ("required", Json.arrL [Json.str "memberIds", Json.str "groupIds"])]⟩,
  ⟨"learningsuite_remove_members_from_groups",
    "Remove multiple members from multiple groups (batch operation)",
    Json.objL [("type", Json.str "object"), ("properties", Json.objL [("memberIds", Json.objL [("type", Json.str "array"), ("items", Json.objL [("type", Json.str "string")]), ("description", Json.str "Array of member IDs")]), ("groupIds", Json.objL [("type", Json.str "array"), ("items", Json.objL [("type", Json.str "string")]), ("description", Json.str "Array of group IDs")])]), ("required", Json.arrL [Json.str "memberIds", Json.str "groupIds"])]⟩,
  ⟨"learningsuite_list_published_courses",
    "Get all published courses",
    Json.objL [("type", Json.str "object"), ("properties", Json.objL []), ("required", Json.arrL [])]⟩,
  ⟨"learningsuite_get_course_modules",
    "Get all modules of a course",
    Json.objL [("type", Json.str "object"), ("properties", Json.objL [("courseId", Json.objL [("type", Json.str "string"), ("description", Json.str "Course ID")])]), ("required", Json.arrL [Json.str "courseId"])]⟩,
  ⟨"learningsuite_get_course_modules_for_member",
    "Get all modules of a course with visibility info for a member",
    Json.objL [("type", Json.str "object"), ("properties", Json.objL [("courseId", Json.objL [("type", Json.str "string"), ("description", Json.str "Course ID")]), ("memberId", Json.objL [("type", Json.str "string"), ("description", Json.str "Member ID")])]), ("required", Json.arrL [Json.str "courseId", Json.str "memberId"])]⟩,
  ⟨"learningsuite_get_course_members",
    "Get members for a course with access and optional progress info",
    Json.objL [("type", Json.str "object"), ("properties", Json.objL [("courseId", Json.objL [("type", Json.str "string"), ("description", Json.str "Course ID")]), ("limit", Json.objL [("type", Json.str "number"), ("description", Json.str "Maximum to return (max 100)")]), ("offset", Json.objL [("type", Json.str "number"), ("description", Json.str "Offset for pagination")]), ("includeProgress", Json.objL [("type", Json.str "boolean"), ("description", Json.str "Include progress info")])]), ("required", Json.arrL [Json.str "courseId"])]⟩,
  ⟨"learningsuite_get_course_access_requests",
    "Get access requests for a course",
    Json.objL [("type", Json.str "object"), ("properties", Json.objL [("courseId", Json.objL [("type", Json.str "string"), ("description", Json.str "Course ID")]), ("limit", Json.objL [("type", Json.str "number"), ("description", Json.str "Maximum to return")]), ("offset", Json.objL [("type", Json.str "number"), ("description", Json.str "Offset for pagination")])]), ("required", Json.arrL [Json.str "courseId"])]⟩,
  ⟨"learningsuite_get_course_submissions",
    "Get all submissions in a course (newest first)",
    Json.objL [("type", Json.str "object"), ("properties", Json.objL [("courseId", Json.objL [("type", Json.str "string"), ("description", Json.str "Course ID")]), ("limit", Json.objL [("type", Json.str "number"), ("description", Json.str "Maximum to return")]), ("offset", Json.objL [("type", Json.str "number"), ("description", Json.str "Offset for pagination")])]), ("required", Json.arrL [Json.str "courseId"])]⟩,
  ⟨"learningsuite_create_lesson",
    "Create a lesson in a course section",
    Json.objL [("type", Json.str "object"), ("properties", Json.objL [("courseId", Json.objL [("type", Json.str "string"), ("description", Json.str "Course ID")]), ("sectionId", Json.objL [("type", Json.str "string"), ("description", Json.str "Section ID")]), ("name", Json.objL [("type", Json.str "string"), ("description", Json.str "Lesson name")]), ("htmlContent", Json.objL [("type", Json.str "string"), ("description", Json.str "HTML content for the lesson")]), ("videoUrl", Json.objL [("type", Json.str "string"), ("description", Json.str "Downloadable video URL")]), ("thumbnailUrl", Json.objL [("type", Json.str "string"), ("description", Json.str "Downloadable thumbnail image URL")]), ("timestampInSecondsToGenerateThumbnail", Json.objL [("type", Json.str "number"), ("description", Json.str "Video timestamp for thumbnail generation")]), ("immediatelyPublishCourse", Json.objL [("type", Json.str "boolean"), ("description", Json.str "Publish course immediately after creating lesson")]), ("lessonSortPosition", Json.objL [("type", Json.str "string"), ("enum", Json.arrL [Json.str "first", Json.str "last"]), ("description", Json.str "Position of the lesson in the section")])]), ("required", Json.arrL [Json.str "courseId", Json.str "sectionId", Json.str "name"])]⟩,
  ⟨"learningsuite_get_module_sections",
    "Get all sections of a module",
    Json.objL [("type", Json.str "object"), ("properties", Json.objL [("moduleId", Json.objL [("type", Json.str "string"), ("description", Json.str "Module ID")])]), ("required", Json.arrL [Json.str "moduleId"])]⟩,
  ⟨"learningsuite_get_module_lessons",
    "Get all lessons of a module",
    Json.objL [("type", Json.str "object"), ("properties", Json.objL [("moduleId", Json.objL [("type", Json.str "string"), ("description", Json.str "Module ID")])]), ("required", Json.arrL [Json.str "moduleId"])]⟩,
  ⟨"learningsuite_create_module_unlock_override",
    "Create a module unlock override for a member",
    Json.objL [("type", Json.str "object"), ("properties", Json.objL [("memberId", Json.objL [("type", Json.str "string"), ("description", Json.str "Member ID")]), ("moduleId", Json.objL [("type", Json.str "string"), ("description", Json.str "Module ID")]), ("unlockAt", Json.objL [("type", Json.str "string"), ("description", Json.str "When to unlock the module (ISO format)")])]), ("required", Json.arrL [Json.str "memberId", Json.str "moduleId"])]⟩,
  ⟨"learningsuite_list_bundles",
    "Get all bundles",
    Json.objL [("type", Json.str "object"), ("properties", Json.objL []), ("required", Json.arrL [])]⟩,
  ⟨"learningsuite_get_bundle_members",
    "Get members of a bundle with access info",
    Json.objL [("type", Json.str "object"), ("properties", Json.objL [("bundleId", Json.objL [("type", Json.str "string"), ("description", Json.str "Bundle ID")]), ("limit", Json.objL [("type", Json.str "number"), ("description", Json.str "Maximum to return (max 200)")]), ("offset", Json.objL [("type", Json.str "number"), ("description", Json.str "Offset for pagination")])]), ("required", Json.arrL [Json.str "bundleId"])]⟩,
  ⟨"learningsuite_list_hubs",
    "Get all published hubs",
    Json.objL [("type", Json.str "object"), ("properties", Json.objL []), ("required", Json.arrL [])]⟩,
  ⟨"learningsuite_create_hub",
    "Create a new hub from a template",
    Json.objL [("type", Json.str "object"), ("properties", Json.objL [("name", Json.objL [("type", Json.str "string"), ("description", Json.str "Hub name")]), ("hubTemplateId", Json.objL [("type", Json.str "string"), ("description", Json.str "Hub template ID")]), ("variables", Json.objL [("type", Json.str "object"), ("description", Json.str "Template variables")])]), ("required", Json.arrL [Json.str "name", Json.str "hubTemplateId"])]⟩,
  ⟨"learningsuite_list_hub_templates",
    "Get all hub templates",
    Json.objL [("type", Json.str "object"), ("properties", Json.objL []), ("required", Json.arrL [])]⟩,
  ⟨"learningsuite_get_hub_template_variables",
    "Get variables for a hub template",
    Json.objL [("type", Json.str "object"), ("properties", Json.objL [("hubTemplateId", Json.objL [("type", Json.str "string"), ("description", Json.str "Hub template ID")])]), ("required", Json.arrL [Json.str "hubTemplateId"])]⟩,
  ⟨"learningsuite_add_hub_accesses",
    "Add access to a hub for members, groups, or bundles",
    Json.objL [("type", Json.str "object"), ("properties", Json.objL [("hubId", Json.objL [("type", Json.str "string"), ("description", Json.str "Hub ID")]), ("memberIds", Json.objL [("type", Json.str "array"), ("items", Json.objL [("type", Json.str "string")]), ("description", Json.str "Array of member IDs")]), ("groupIds", Json.objL [("type", Json.str "array"), ("items", Json.objL [("type", Json.str "string")]), ("description", Json.str "Array of group IDs")]), ("bundleIds", Json.objL [("type", Json.str "array"), ("items", Json.objL [("type", Json.str "string")]), ("description", Json.str "Array of bundle IDs")])]), ("required", Json.arrL [Json.str "hubId"])]⟩,
  ⟨"learningsuite_remove_hub_accesses",
    "Remove access from a hub for members, groups, or bundles",
    Json.objL [("type", Json.str "object"), ("properties", Json.objL [("hubId", Json.objL [("type", Json.str "string"), ("description", Json.str "Hub ID")]), ("memberIds", Json.objL [("type", Json.str "array"), ("items", Json.objL [("type", Json.str "string")]), ("description", Json.str "Array of member IDs")]), ("groupIds", Json.objL [("type", Json.str "array"), ("items", Json.objL [("type", Json.str "string")]), ("description", Json.str "Array of group IDs")]), ("bundleIds", Json.objL [("type", Json.str "array"), ("items", Json.objL [("type", Json.str "string")]), ("description", Json.str "Array of bundle IDs")])]), ("required", Json.arrL [Json.str "hubId"])]⟩,
  ⟨"learningsuite_list_community_areas",
    "Get all community areas",
    Json.objL [("type", Json.str "object"), ("properties", Json.objL []), ("required", Json.arrL [])]⟩,
  ⟨"learningsuite_list_community_forums",
    "Get community forums",
    Json.objL [("type", Json.str "object"), ("properties", Json.objL [("areaId", Json.objL [("type", Json.str "string"), ("description", Json.str "Filter by area ID")]), ("limit", Json.objL [("type", Json.str "number"), ("description", Json.str "Maximum to return")]), ("offset", Json.objL [("type", Json.str "number"), ("description", Json.str "Offset for pagination")])]), ("required", Json.arrL [])]⟩,
  ⟨"learningsuite_list_community_posts",
    "Get community posts",
    Json.objL [("type", Json.str "object"), ("properties", Json.objL [("forumId", Json.objL [("type", Json.str "string"), ("description", Json.str "Filter by forum ID")]), ("limit", Json.objL [("type", Json.str "number"), ("description", Json.str "Maximum to return")]), ("offset", Json.objL [("type", Json.str "number"), ("description", Json.str "Offset for pagination")])]), ("required", Json.arrL [])]⟩,
  ⟨"learningsuite_comment_on_post",
    "Comment on a community post",
    Json.objL [("type", Json.str "object"), ("properties", Json.objL [("postId", Json.objL [("type", Json.str "string"), ("description", Json.str "Post ID")]), ("content", Json.objL [("type", Json.str "string"), ("description", Json.str "Comment content")]), ("parentCommentId", Json.objL [("type", Json.str "string"), ("description", Json.str "Parent comment ID for replies")])]), ("required", Json.arrL [Json.str "postId", Json.str "content"])]⟩,
  ⟨"learningsuite_list_community_badges",
    "Get all community badges",
    Json.objL [("type", Json.str "object"), ("properties", Json.objL []), ("required", Json.arrL [])]⟩,
  ⟨"learningsuite_assign_badges_to_user",
    "Assign badges to a user",
    Json.objL [("type", Json.str "object"), ("properties", Json.objL [("userId", Json.objL [("type", Json.str "string"), ("description", Json.str "User ID")]), ("badgeIds", Json.objL [("type", Json.str "array"), ("items", Json.objL [("type", Json.str "string")]), ("description", Json.str "Array of badge IDs")])]), ("required", Json.arrL [Json.str "userId", Json.str "badgeIds"])]⟩,
  ⟨"learningsuite_remove_badges_from_user",
    "Remove badges from a user",
    Json.objL [("type", Json.str "object"), ("properties", Json.objL [("userId", Json.objL [("type", Json.str "string"), ("description", Json.str "User ID")]), ("badgeIds", Json.objL [("type", Json.str "array"), ("items", Json.objL [("type", Json.str "string")]), ("description", Json.str "Array of badge IDs")])]), ("required", Json.arrL [Json.str "userId", Json.str "badgeIds"])]⟩,
  ⟨"learningsuite_list_popups",
    "Get all popups",
    Json.objL [("type", Json.str "object"), ("properties", Json.objL [("limit", Json.objL [("type", Json.str "number"), ("description", Json.str "Maximum to return")]), ("offset", Json.objL [("type", Json.str "number"), ("description", Json.str "Offset for pagination")])]), ("required", Json.arrL [])]⟩,
  ⟨"learningsuite_get_popup",
    "Get a popup by ID",
    Json.objL [("type", Json.str "object"), ("properties", Json.objL [("popupId", Json.objL [("type", Json.str "string"), ("description", Json.str "Popup ID")])]), ("required", Json.arrL [Json.str "popupId"])]⟩,
  ⟨"learningsuite_trigger_popup",
    "Trigger a popup for a member",
    Json.objL [("type", Json.str "object"), ("properties", Json.objL [("popupId", Json.objL [("type", Json.str "string"), ("description", Json.str "Popup ID")]), ("memberId", Json.objL [("type", Json.str "string"), ("description", Json.str "Member ID")])]), ("required", Json.arrL [Json.str "popupId", Json.str "memberId"])]⟩,
  ⟨"learningsuite_remove_popup_trigger",
    "Remove a popup trigger for a member",
    Json.objL [("type", Json.str "object"), ("properties", Json.objL [("popupId", Json.objL [("type", Json.str "string"), ("description", Json.str "Popup ID")]), ("memberId", Json.objL [("type", Json.str "string"), ("description", Json.str "Member ID")])]), ("required", Json.arrL [Json.str "popupId", Json.str "memberId"])]⟩,
  ⟨"learningsuite_send_push_notifications",
    "Send push notifications to users (requires custom app)",
    Json.objL [("type", Json.str "object"), ("properties", Json.objL [("userIds", Json.objL [("type", Json.str "array"), ("items", Json.objL [("type", Json.str "string")]), ("description", Json.str "Array of user IDs")]), ("groupIds", Json.objL [("type", Json.str "array"), ("items", Json.objL [("type", Json.str "string")]), ("description", Json.str "Array of group IDs")]), ("title", Json.objL [("type", Json.str "string"), ("description", Json.str "Notification title")]), ("body", Json.objL [("type", Json.str "string"), ("description", Json.str "Notification body text")]), ("linkUrl", Json.objL [("type", Json.str "string"), ("description", Json.str "Link URL when tapped")]), ("publicImageUrl", Json.objL [("type", Json.str "string"), ("description", Json.str "Public image URL for notification")])]), ("required", Json.arrL [Json.str "linkUrl"])]⟩,
  ⟨"learningsuite_list_roles",
    "Get all roles",
    Json.objL [("type", Json.str "object"), ("properties", Json.objL []), ("required", Json.arrL [])]⟩,
  ⟨"learningsuite_list_webhook_subscriptions",
    "Get all webhook subscriptions",
    Json.objL [("type", Json.str "object"), ("properties", Json.objL []), ("required", Json.arrL [])]⟩,
  ⟨"learningsuite_create_webhook_subscription",
    "Create a webhook subscription",
    Json.objL [("type", Json.str "object"), ("properties", Json.objL [("url", Json.objL [("type", Json.str "string"), ("description", Json.str "Webhook URL")]), ("events", Json.objL [("type", Json.str "array"), ("items", Json.objL [("type", Json.str "string")]), ("description", Json.str "Array of event types to subscribe to")]), ("secret", Json.objL [("type", Json.str "string"), ("description", Json.str "Webhook secret")])]), ("required", Json.arrL [Json.str "url", Json.str "events"])]⟩,
  ⟨"learningsuite_get_webhook_subscription",
    "Get a webhook subscription by ID",
    Json.objL [("type", Json.str "object"), ("properties", Json.objL [("subscriptionId", Json.objL [("type", Json.str "string"), ("description", Json.str "Subscription ID")])]), ("required", Json.arrL [Json.str "subscriptionId"])]⟩,
  ⟨"learningsuite_update_webhook_subscription",
    "Update a webhook subscription",
    Json.objL [("type", Json.str "object"), ("properties", Json.objL [("subscriptionId", Json.objL [("type", Json.str "string"), ("description", Json.str "Subscription ID")]), ("url", Json.objL [("type", Json.str "string"), ("description", Json.str "Webhook URL")]), ("events", Json.objL [("type", Json.str "array"), ("items", Json.objL [("type", Json.str "string")]), ("description", Json.str "Array of event types")]), ("secret", Json.objL [("type", Json.str "string"), ("description", Json.str "Webhook secret")]), ("enabled", Json.objL [("type", Json.str "boolean"), ("description", Json.str "Enable/disable webhook")])]), ("required", Json.arrL [Json.str "subscriptionId"])]⟩,
  ⟨"learningsuite_delete_webhook_subscription",
    "Delete a webhook subscription",
    Json.objL [("type", Json.str "object"), ("properties", Json.objL [("subscriptionId", Json.objL [("type", Json.str "string"), ("description", Json.str "Subscription ID")])]), ("required", Json.arrL [Json.str "subscriptionId"])]⟩,
  ⟨"learningsuite_get_webhook_sample_data",
    "Get sample data for a webhook event type",
    Json.objL [("type", Json.str "object"), ("properties", Json.objL [("eventType", Json.objL [("type", Json.str "string"), ("enum", Json.arrL [Json.str "community-post-commented-events", Json.str "community-post-created-events", Json.str "community-post-moderated-events", Json.str "course-member-added-events", Json.str "course-updated-events", Json.str "custom-popup-interaction-events", Json.str "exam-completed-events", Json.str "exam-graded-events", Json.str "feedback-events", Json.str "group-user-access-changed-events", Json.str "lesson-completed-events", Json.str "new-login-events", Json.str "progress-changed-events"]), ("description", Json.str "Event type")])]), ("required", Json.arrL [Json.str "eventType"])]⟩
]

/-- The registered tool names, in declaration order (see `toolNames_eq`). -/
def toolNames : List String := [
    "learningsuite_check_auth",
    "learningsuite_list_members",
    "learningsuite_create_member",
    "learningsuite_get_member",
    "learningsuite_get_member_by_email",
    "learningsuite_update_member",
    "learningsuite_delete_member",
    "learningsuite_get_member_courses",
    "learningsuite_add_member_to_courses",
    "learningsuite_remove_member_from_courses",
    "learningsuite_get_member_course_info",
    "learningsuite_get_member_bundles",
    "learningsuite_add_member_to_bundles",
    "learningsuite_remove_member_from_bundles",
    "learningsuite_list_team_members",
    "learningsuite_get_team_member",
    "learningsuite_get_team_member_by_email",
    "learningsuite_list_groups",
    "learningsuite_create_group",
    "learningsuite_find_groups_by_name",
    "learningsuite_delete_group",
    "learningsuite_get_group_courses",
    "learningsuite_add_courses_to_group",
    "learningsuite_remove_courses_from_group",
    "learningsuite_add_bundles_to_group",
    "learningsuite_add_members_to_groups",
    "learningsuite_remove_members_from_groups",
    "learningsuite_list_published_courses",
    "learningsuite_get_course_modules",
    "learningsuite_get_course_modules_for_member",
    "learningsuite_get_course_members",
    "learningsuite_get_course_access_requests",
    "learningsuite_get_course_submissions",
    "learningsuite_create_lesson",
    "learningsuite_get_module_sections",
    "learningsuite_get_module_lessons",
    "learningsuite_create_module_unlock_override",
    "learningsuite_list_bundles",
    "learningsuite_get_bundle_members",
    "learningsuite_list_hubs",
    "learningsuite_create_hub",
    "learningsuite_list_hub_templates",
    "learningsuite_get_hub_template_variables",
    "learningsuite_add_hub_accesses",
    "learningsuite_remove_hub_accesses",
    "learningsuite_list_community_areas",
    "learningsuite_list_community_forums",
    "learningsuite_list_community_posts",
    "learningsuite_comment_on_post",
    "learningsuite_list_community_badges",
    "learningsuite_assign_badges_to_user",
    "learningsuite_remove_badges_from_user",
    "learningsuite_list_popups",
    "learningsuite_get_popup",
    "learningsuite_trigger_popup",
    "learningsuite_remove_popup_trigger",
    "learningsuite_send_push_notifications",
    "learningsuite_list_roles",
    "learningsuite_list_webhook_subscriptions",
    "learningsuite_create_webhook_subscription",
    "learningsuite_get_webhook_subscription",
    "learningsuite_update_webhook_subscription",
    "learningsuite_delete_webhook_subscription",
    "learningsuite_get_webhook_sample_data"
]

-- ==================== Dispatcher ====================

/-- JS property access `args.k` on the argument map: the first binding wins
(keys of a JS object are unique), a missing key is `undefined` (`none`). -/
def lookupArg (args : List (String × Json)) (k : String) : Option Json :=
  match args with
  | [] => none
  | kv :: rest => if kv.1 = k then some kv.2 else lookupArg rest k

/-- Template-literal stringification of a possibly-undefined value, as
`${args.x as string}` behaves at runtime. -/
def interp : Option Json → String
  | none => "undefined"
  | some j => jsToString j

/-- `args as any` used as a query-parameter map or a request body: every
present key is kept with its (defined) value. -/
def argsToObj (args : List (String × Json)) : JsObj :=
  args.map (fun kv => (kv.1, some kv.2))

/-- Rest destructuring `const (x, ...data) = args`: `data` is `args` without
the extracted key, order preserved. -/
def removeKey (args : List (String × Json)) (k : String) : List (String × Json) :=
  args.filter (fun kv => kv.1 != k)

/-- The `switch` of `handleToolCall` in index.ts: route a tool name to the
bound client operation, or throw `Error("Unknown tool: <name>")`. -/
def handleToolCall (rt : JsRuntime) (c : LearningSuiteClient) (name : String)
    (args : List (String × Json)) : Except Thrown Json × List HttpRequest :=
  if name = "learningsuite_check_auth" then c.checkAuth rt
  else if name = "learningsuite_list_members" then c.getMembers rt (some (argsToObj args))
  else if name = "learningsuite_create_member" then c.createMember rt (argsToObj args)
  else if name = "learningsuite_get_member" then
    c.getMember rt (interp (lookupArg args "memberId")) (lookupArg args "includeGroups")
  else if name = "learningsuite_get_member_by_email" then
    c.getMemberByEmail rt (lookupArg args "email") (lookupArg args "includeGroups")
  else if name = "learningsuite_update_member" then
    c.updateMember rt (interp (lookupArg args "memberId")) (argsToObj (removeKey args "memberId"))
  else if name = "learningsuite_delete_member" then
    c.deleteMember rt (interp (lookupArg args "memberId"))
  else if name = "learningsuite_get_member_courses" then
    c.getMemberCourses rt (interp (lookupArg args "memberId")) (some (argsToObj args))
  else if name = "learningsuite_add_member_to_courses" then
    c.addMemberToCourses rt (interp (lookupArg args "memberId")) (argsToObj args)
  else if name = "learningsuite_remove_member_from_courses" then
    c.removeMemberFromCourses rt (interp (lookupArg args "memberId")) (lookupArg args "courseIds")
  else if name = "learningsuite_get_member_course_info" then
    c.getMemberCourseInfo rt (interp (lookupArg args "memberId"))
      (interp (lookupArg args "courseId")) (lookupArg args "dateForAccessCheck")
  else if name = "learningsuite_get_member_bundles" then
    c.getMemberBundles rt (interp (lookupArg args "memberId"))
  else if name = "learningsuite_add_member_to_bundles" then
    c.addMemberToBundles rt (interp (lookupArg args "memberId")) (argsToObj args)
  else if name = "learningsuite_remove_member_from_bundles" then
    c.removeMemberFromBundles rt (interp (lookupArg args "memberId")) (lookupArg args "bundleIds")
  else if name = "learningsuite_list_team_members" then
    c.getTeamMembers rt (some (argsToObj args))
  else if name = "learningsuite_get_team_member" then
    c.getTeamMember rt (interp (lookupArg args "userId"))
  else if name = "learningsuite_get_team_member_by_email" then
    c.getTeamMemberByEmail rt (lookupArg args "email")
  else if name = "learningsuite_list_groups" then
    c.getGroups rt (some (argsToObj args))
  else if name = "learningsuite_create_group" then
    c.createGroup rt (argsToObj args)
  else if name = "learningsuite_find_groups_by_name" then
    c.findGroupsByName rt (lookupArg args "name")
  else if name = "learningsuite_delete_group" then
    c.deleteGroup rt (interp (lookupArg args "groupId"))
  else if name = "learningsuite_get_group_courses" then
    c.getGroupCourses rt (interp (lookupArg args "groupId"))
  else if name = "learningsuite_add_courses_to_group" then
    c.addCoursesToGroup rt (interp (lookupArg args "groupId")) (lookupArg args "courseIds")
  else if name = "learningsuite_remove_courses_from_group" then
    c.removeCoursesFromGroup rt (interp (lookupArg args "groupId")) (lookupArg args "courseIds")
  else if name = "learningsuite_add_bundles_to_group" then
    c.addBundlesToGroup rt (interp (lookupArg args "groupId")) (lookupArg args "bundleIds")
  else if name = "learningsuite_add_members_to_groups" then
    c.addMembersToGroups rt (argsToObj args)
  else if name = "learningsuite_remove_members_from_groups" then
    c.removeMembersFromGroups rt (argsToObj args)
  else if name = "learningsuite_list_published_courses" then
    c.getPublishedCourses rt
  else if name = "learningsuite_get_course_modules" then
    c.getCourseModules rt (interp (lookupArg args "courseId"))
  else if name = "learningsuite_get_course_modules_for_member" then
    c.getCourseModulesForMember rt (interp (lookupArg args "courseId"))
      (interp (lookupArg args "memberId"))
  else if name = "learningsuite_get_course_members" then
    c.getCourseMembers rt (interp (lookupArg args "courseId")) (some (argsToObj args))
  else if name = "learningsuite_get_course_access_requests" then
    c.getCourseAccessRequests rt (interp (lookupArg args "courseId")) (some (argsToObj args))
  else if name = "learningsuite_get_course_submissions" then
    c.getCourseSubmissions rt (interp (lookupArg args "courseId")) (some (argsToObj args))
  else if name = "learningsuite_create_lesson" then
    c.createLesson rt (interp (lookupArg args "courseId"))
      (interp (lookupArg args "sectionId")) (argsToObj args)
  else if name = "learningsuite_get_module_sections" then
    c.getModuleSections rt (interp (lookupArg args "moduleId"))
  else if name = "learningsuite_get_module_lessons" then
    c.getModuleLessons rt (interp (lookupArg args "moduleId"))
  else if name = "learningsuite_create_module_unlock_override" then
    c.createModuleUnlockOverride rt (argsToObj args)
  else if name = "learningsuite_list_bundles" then
    c.getBundles rt
  else if name = "learningsuite_get_bundle_members" then
    c.getBundleMembers rt (interp (lookupArg args "bundleId")) (some (argsToObj args))
  else if name = "learningsuite_list_hubs" then
    c.getHubs rt
  else if name = "learningsuite_create_hub" then
    c.createHub rt (argsToObj args)
  else if name = "learningsuite_list_hub_templates" then
    c.getHubTemplates rt
  else if name = "learningsuite_get_hub_template_variables" then
    c.getHubTemplateVariables rt (interp (lookupArg args "hubTemplateId"))
  else if name = "learningsuite_add_hub_accesses" then
    c.addHubAccesses rt (interp (lookupArg args "hubId")) (argsToObj args)
  else if name = "learningsuite_remove_hub_accesses" then
    c.removeHubAccesses rt (interp (lookupArg args "hubId")) (argsToObj args)
  else if name = "learningsuite_list_community_areas" then
    c.getCommunityAreas rt
  else if name = "learningsuite_list_community_forums" then
    c.getCommunityForums rt (some (argsToObj args))
  else if name = "learningsuite_list_community_posts" then
    c.getCommunityPosts rt (some (argsToObj args))
  else if name = "learningsuite_comment_on_post" then
    c.commentOnPost rt (interp (lookupArg args "postId")) (argsToObj args)
  else if name = "learningsuite_list_community_badges" then
    c.getCommunityBadges rt
  else if name = "learningsuite_assign_badges_to_user" then
    c.assignBadgesToUser rt (argsToObj args)
  else if name = "learningsuite_remove_badges_from_user" then
    c.removeBadgesFromUser rt (argsToObj args)
  else if name = "learningsuite_list_popups" then
    c.getPopups rt (some (argsToObj args))
  else if name = "learningsuite_get_popup" then
    c.getPopup rt (interp (lookupArg args "popupId"))
  else if name = "learningsuite_trigger_popup" then
    c.triggerPopup rt (interp (lookupArg args "popupId")) (interp (lookupArg args "memberId"))
  else if name = "learningsuite_remove_popup_trigger" then
    c.removePopupTrigger rt (interp (lookupArg args "popupId")) (interp (lookupArg args "memberId"))
  else if name = "learningsuite_send_push_notifications" then
    c.sendPushNotifications rt (argsToObj args)
  else if name = "learningsuite_list_roles" then
    c.getRoles rt
  else if name = "learningsuite_list_webhook_subscriptions" then
    c.getWebhookSubscriptions rt
  else if name = "learningsuite_create_webhook_subscription" then
    c.createWebhookSubscription rt (argsToObj args)
  else if name = "learningsuite_get_webhook_subscription" then
    c.getWebhookSubscription rt (interp (lookupArg args "subscriptionId"))
  else if name = "learningsuite_update_webhook_subscription" then
    c.updateWebhookSubscription rt (interp (lookupArg args "subscriptionId"))
      (argsToObj (removeKey args "subscriptionId"))
  else if name = "learningsuite_delete_webhook_subscription" then
    c.deleteWebhookSubscription rt (interp (lookupArg args "subscriptionId"))
  else if name = "learningsuite_get_webhook_sample_data" then
    c.getWebhookSampleData rt (interp (lookupArg args "eventType"))
  else (.error (.err ("Unknown tool: " ++ name)), [])

-- ==================== Protocol handlers ====================

structure ContentBlock where
  type : String
  text : String
deriving DecidableEq

/-- The protocol result envelope.  `isError := none` models the `isError`
field being absent from the returned object (the success branch of the
CallTool handler does not set it). -/
structure ResultEnvelope where
  content : List ContentBlock
  isError : Option Bool
deriving DecidableEq

/-- The `catch` conversion of the CallTool handler:
`error instanceof Error ? error.message : String(error)`. -/
def errorToMessage : Thrown → String
  | .err m => m
  | .val v => jsToString v

/-- The envelope built by the `catch` branch of the CallTool handler. -/
def mkErrorEnvelope (e : Thrown) : ResultEnvelope :=
  { content := [⟨"text", "Error: " ++ errorToMessage e⟩], isError := some true }

/-- The CallTool request handler: dispatch, then wrap the outcome.  The
success branch sets no `isError` field. -/
def callTool (rt : JsRuntime) (c : LearningSuiteClient) (name : String)
    (args : List (String × Json)) : ResultEnvelope :=
  match (handleToolCall rt c name args).1 with
  | .ok result => { content := [⟨"text", stringifyPretty result⟩], isError := none }
  | .error e => mkErrorEnvelope e

/-- The ListTools request handler: returns the catalog, unconditionally. -/
def listTools : Unit → List ToolDescriptor := fun _ => tools


-- ==================== Dispatch helper lemmas ====================

/-- Every registered tool name is routed to a bound client operation: the
dispatcher issues exactly one HTTP request and returns the handled response
for it. -/
theorem handleToolCall_known (rt : JsRuntime) (c : LearningSuiteClient)
    (name : String) (args : List (String × Json)) (h : name ∈ toolNames) :
    ∃ req, handleToolCall rt c name args = (handleResponse rt (rt.fetch req), [req]) := by
  fin_cases h <;> exact ⟨_, rfl⟩

/-- A name outside the catalog falls through every case to the default
branch: no request is issued and `Error("Unknown tool: <name>")` is thrown. -/
theorem handleToolCall_unknown (rt : JsRuntime) (c : LearningSuiteClient)
    (name : String) (args : List (String × Json)) (h : name ∉ toolNames) :
    handleToolCall rt c name args = (.error (.err ("Unknown tool: " ++ name)), []) := by
  simp only [toolNames, List.mem_cons, List.not_mem_nil, or_false] at h
  push_neg at h
  obtain ⟨h1, h2, h3, h4, h5, h6, h7, h8, h9, h10, h11, h12, h13, h14, h15, h16, h17, h18, h19, h20, h21, h22, h23, h24, h25, h26, h27, h28, h29, h30, h31, h32, h33, h34, h35, h36, h37, h38, h39, h40, h41, h42, h43, h44, h45, h46, h47, h48, h49, h50, h51, h52, h53, h54, h55, h56, h57, h58, h59, h60, h61, h62, h63, h64⟩ := h
  simp only [handleToolCall, h1, h2, h3, h4, h5, h6, h7, h8, h9, h10, h11, h12, h13, h14, h15, h16, h17, h18, h19, h20, h21, h22, h23, h24, h25, h26, h27, h28, h29, h30, h31, h32, h33, h34, h35, h36, h37, h38, h39, h40, h41, h42, h43, h44, h45, h46, h47, h48, h49, h50, h51, h52, h53, h54, h55, h56, h57, h58, h59, h60, h61, h62, h63, h64, if_false, ite_false]

-- ==================== Generic helper lemmas ====================

theorem str_append_empty (s : String) : s ++ "" = s := by
  cases s with
  | mk data => show String.mk (data ++ []) = String.mk data
               rw [List.append_nil]

/-- In an association list with pairwise-distinct keys (a JS object), two
bindings of the same key carry the same value. -/
theorem keys_nodup_mem_eq {l : JsObj} {k : String} {a b : Option Json}
    (h : (l.map Prod.fst).Nodup) (ha : (k, a) ∈ l) (hb : (k, b) ∈ l) : a = b := by
  induction l with
  | nil => cases ha
  | cons hd tl ih =>
    rw [List.map_cons, List.nodup_cons] at h
    rcases List.mem_cons.1 ha with rfl | ha2
    · rcases List.mem_cons.1 hb with hb1 | hb2
      · exact ((Prod.ext_iff.1 hb1).2).symm
      · exfalso
        have hk : k ∉ tl.map Prod.fst := h.1
        exact hk (List.mem_map_of_mem Prod.fst hb2)
    · rcases List.mem_cons.1 hb with rfl | hb2
      · exfalso
        have hk : k ∉ tl.map Prod.fst := h.1
        exact hk (List.mem_map_of_mem Prod.fst ha2)
      · exact ih h.2 ha2 hb2

/-- A key that `lookupArg` resolves is among the keys of the raw-args object. -/
theorem lookupArg_mem_keys {args : List (String × Json)} {k : String} {v : Json}
    (h : lookupArg args k = some v) : k ∈ (argsToObj args).map Prod.fst := by
  induction args with
  | nil => simp [lookupArg] at h
  | cons hd tl ih =>
    rw [lookupArg] at h
    by_cases hk : hd.1 = k
    · simp [argsToObj, hk]
    · rw [if_neg hk] at h
      simp only [argsToObj, List.map_cons, List.mem_cons]
      right
      exact ih h

-- ==================== Claim theorems ====================

/-- C1: for every tool name outside the operation catalog, CallTool with any
argument map returns an error envelope whose text contains
"Unknown tool: <name>", issues no HTTP request, and never lets a throw cross
the CallTool boundary — the catch branch converts any thrown value, Error or
not, into a well-formed envelope. -/
theorem callTool_unknown_name_safe (rt : JsRuntime) (c : LearningSuiteClient)
    (name : String) (args : List (String × Json)) (h : name ∉ toolNames) :
    callTool rt c name args =
      ⟨[⟨"text", "Error: " ++ ("Unknown tool: " ++ name)⟩], some true⟩ ∧
    (∃ pre, "Error: " ++ ("Unknown tool: " ++ name) = pre ++ ("Unknown tool: " ++ name)) ∧
    (handleToolCall rt c name args).2 = [] ∧
    (∀ v : Json, mkErrorEnvelope (.val v) =
      ⟨[⟨"text", "Error: " ++ jsToString v⟩], some true⟩) := by
  have h2 := handleToolCall_unknown rt c name args h
  refine ⟨?_, ⟨"Error: ", rfl⟩, ?_, fun v => rfl⟩
  · unfold callTool
    rw [h2]
    rfl
  · rw [h2]

theorem callTool_unknown_name_safe_witness :
    callTool ⟨fun _ => none, fun _ => "", fun _ => ⟨200, ""⟩⟩ ⟨"key"⟩
        "not_a_real_tool" [] =
      ⟨[⟨"text", "Error: " ++ ("Unknown tool: " ++ "not_a_real_tool")⟩], some true⟩ :=
  (callTool_unknown_name_safe _ _ "not_a_real_tool" [] (by decide)).1

/-- C2 counterexample: a successful call (check_auth against a 2xx empty-body
response, whose payload is the empty object) produces an envelope whose
`isError` field is absent — not present-and-false as the claim states. -/
theorem success_isError_absent_counterexample :
    (handleToolCall ⟨fun _ => none, fun _ => "", fun _ => ⟨200, ""⟩⟩ ⟨"key"⟩
        "learningsuite_check_auth" []).1 = .ok (Json.objL []) ∧
    (callTool ⟨fun _ => none, fun _ => "", fun _ => ⟨200, ""⟩⟩ ⟨"key"⟩
        "learningsuite_check_auth" []).isError = none ∧
    ¬ (callTool ⟨fun _ => none, fun _ => "", fun _ => ⟨200, ""⟩⟩ ⟨"key"⟩
        "learningsuite_check_auth" []).isError = some false :=
  ⟨rfl, rfl, by decide⟩

/-- C2 (amended): on every successful tool call the envelope is exactly
`{content: [one text block with the pretty-printed JSON payload]}` — with no
`isError` field set (absence, not an explicit `false`, signals success). -/
theorem success_envelope_shape (rt : JsRuntime) (c : LearningSuiteClient)
    (name : String) (args : List (String × Json)) (j : Json)
    (h : (handleToolCall rt c name args).1 = .ok j) :
    callTool rt c name args = ⟨[⟨"text", stringifyPretty j⟩], none⟩ := by
  unfold callTool
  rw [h]

theorem success_envelope_shape_witness :
    callTool ⟨fun _ => none, fun _ => "", fun _ => ⟨200, ""⟩⟩ ⟨"key"⟩
        "learningsuite_check_auth" [] =
      ⟨[⟨"text", stringifyPretty (Json.objL [])⟩], none⟩ :=
  success_envelope_shape _ _ _ _ _ rfl

/-- C3 counterexample: the catalog registers 64 tools, not 65 as the claim
counts. -/
theorem catalog_count_counterexample :
    tools.length = 64 ∧ ¬ tools.length = 65 :=
  ⟨rfl, by decide⟩

/-- C3 (amended): every one of the 64 registered tool descriptors dispatches
to a bound client operation — the call issues exactly one HTTP request and
never falls through to the "Unknown tool" branch. -/
theorem catalog_completeness (rt : JsRuntime) (c : LearningSuiteClient)
    (args : List (String × Json)) (t : ToolDescriptor) (ht : t ∈ listTools ()) :
    tools.length = 64 ∧
    ∃ req, handleToolCall rt c t.name args =
      (handleResponse rt (rt.fetch req), [req]) := by
  refine ⟨rfl, ?_⟩
  have hn : t.name ∈ toolNames := by
    rw [show toolNames = tools.map ToolDescriptor.name from rfl]
    exact List.mem_map_of_mem _ ht
  exact handleToolCall_known rt c t.name args hn

theorem catalog_completeness_witness :
    tools.length = 64 ∧
    ∃ req, handleToolCall ⟨fun _ => none, fun _ => "", fun _ => ⟨200, ""⟩⟩ ⟨"key"⟩
        (tools.get ⟨0, by decide⟩).name [] =
      (handleResponse ⟨fun _ => none, fun _ => "", fun _ => ⟨200, ""⟩⟩
        ((⟨fun _ => none, fun _ => "", fun _ => ⟨200, ""⟩⟩ : JsRuntime).fetch req), [req]) :=
  catalog_completeness _ _ [] _ (List.get_mem tools 0 (by decide))

/-- C8: ListTools is total and constant — every invocation returns the whole
64-descriptor catalog in declaration order. -/
theorem listTools_constant :
    (∀ u v : Unit, listTools u = listTools v) ∧
    listTools () = tools ∧ (listTools ()).length = 64 :=
  ⟨fun _ _ => rfl, rfl, rfl⟩

/-- C4: query serialization — a key appears in the serialized pairs exactly
when its value is defined (with the value put through `String(...)`, numbers
and booleans taking their textual form); under unique keys an undefined key
is absent entirely; and when every value is undefined the URL carries no `?`
at all. -/
theorem query_param_serialization (qp : JsObj) (path : String) :
    (∀ k v, (k, some v) ∈ qp → (k, jsToString v) ∈ definedQueryPairs qp) ∧
    (∀ k s, (k, s) ∈ definedQueryPairs qp → ∃ v, (k, some v) ∈ qp ∧ s = jsToString v) ∧
    ((qp.map Prod.fst).Nodup → ∀ k, (k, none) ∈ qp →
      ∀ s, (k, s) ∉ definedQueryPairs qp) ∧
    ((∀ p ∈ qp, p.2 = none) → requestUrl path (some qp) = BASE_URL ++ path) ∧
    (∀ n : Int, jsToString (Json.num n) = toString n) ∧
    (∀ b : Bool, jsToString (Json.bool b) = cond b "true" "false") := by
  refine ⟨?_, ?_, ?_, ?_, fun n => rfl, fun b => rfl⟩
  · intro k v hv
    exact List.mem_filterMap.2 ⟨(k, some v), hv, rfl⟩
  · intro k s hs
    obtain ⟨⟨k2, ov⟩, hmem, heq⟩ := List.mem_filterMap.1 hs
    cases ov with
    | none => simp at heq
    | some v =>
      simp only [Option.map_some, Option.some.injEq, Prod.mk.injEq] at heq
      obtain ⟨rfl, rfl⟩ := heq
      exact ⟨v, hmem, rfl⟩
  · intro hnd k hk s hs
    obtain ⟨⟨k2, ov⟩, hmem, heq⟩ := List.mem_filterMap.1 hs
    cases ov with
    | none => simp at heq
    | some v =>
      simp only [Option.map_some, Option.some.injEq, Prod.mk.injEq] at heq
      obtain ⟨rfl, rfl⟩ := heq
      exact Option.noConfusion (keys_nodup_mem_eq hnd hk hmem)
  · intro hall
    have hempty : definedQueryPairs qp = [] := by
      rw [definedQueryPairs, List.filterMap_eq_nil_iff]
      intro p hp
      rw [hall p hp]
      rfl
    rw [requestUrl, queryString, hempty]
    show BASE_URL ++ path ++ (if ("" : String) = "" then "" else "?" ++ "") = BASE_URL ++ path
    rw [if_pos rfl]
    exact str_append_empty _

theorem query_param_serialization_witness :
    ("includeGroups", jsToString (Json.bool true)) ∈
      definedQueryPairs [("includeGroups", some (Json.bool true)), ("limit", none)] ∧
    requestUrl "/members" (some [("limit", (none : Option Json))]) =
      BASE_URL ++ "/members" :=
  ⟨(query_param_serialization _ "/members").1 _ _ (List.mem_cons_self _ _),
   (query_param_serialization _ "/members").2.2.2.1
     (by intro p hp
         rcases List.mem_singleton.1 hp with rfl
         rfl)⟩

/-- C5: a GET request never carries a body, whatever was passed for it; a
body is attached only when the method is POST, PUT or DELETE and a body value
was supplied.  In particular, dispatching a GET-shaped tool (here
get_member_courses, which forwards the whole raw argument map) issues a
bodiless request no matter which extraneous fields `args` holds. -/
theorem body_only_on_mutation (c : LearningSuiteClient) (method path : String)
    (body qp : Option JsObj) :
    (buildRequest c "GET" path body qp).body = none ∧
    ((buildRequest c method path body qp).body ≠ none →
      (method = "POST" ∨ method = "PUT" ∨ method = "DELETE") ∧ body ≠ none) ∧
    (∀ rt args, ((handleToolCall rt c "learningsuite_get_member_courses" args).2.map
      HttpRequest.body) = [none]) := by
  refine ⟨?_, ?_, fun rt args => rfl⟩
  · cases body with
    | none => rfl
    | some b => rfl
  · intro h
    cases body with
    | none => simp [buildRequest] at h
    | some b =>
      by_cases hm : method = "POST" ∨ method = "PUT" ∨ method = "DELETE"
      · exact ⟨hm, by simp⟩
      · exfalso
        apply h
        simp [buildRequest, hm]

theorem body_only_on_mutation_witness :
    (buildRequest ⟨"key"⟩ "GET" "/members"
      (some [("limit", some (Json.num 5))]) none).body = none ∧
    (("POST" = "POST" ∨ "POST" = "PUT" ∨ "POST" = "DELETE") ∧
      (some [("a", some Json.null)] : Option JsObj) ≠ none) :=
  ⟨(body_only_on_mutation ⟨"key"⟩ "GET" "/members"
      (some [("limit", some (Json.num 5))]) none).1,
   (body_only_on_mutation ⟨"key"⟩ "POST" "/members"
      (some [("a", some Json.null)]) none).2.1 (by simp [buildRequest, stringifyBody])⟩

/-- C6: a non-2xx response makes the transport throw
`API Error <status>: <body>` (the body text verbatim), and CallTool converts
that throw into an error envelope whose text carries the same message. -/
theorem api_error_passthrough (rt : JsRuntime) (c : LearningSuiteClient)
    (resp : HttpResponse) (name : String) (args : List (String × Json))
    (hstatus : resp.status < 200 ∨ 300 ≤ resp.status)
    (hfetch : ∀ r, rt.fetch r = resp)
    (hname : name ∈ toolNames) :
    handleResponse rt resp =
      .error (.err ("API Error " ++ toString resp.status ++ ": " ++ resp.body)) ∧
    callTool rt c name args =
      ⟨[⟨"text", "Error: " ++
          ("API Error " ++ toString resp.status ++ ": " ++ resp.body)⟩],
        some true⟩ := by
  have hr : handleResponse rt resp =
      .error (.err ("API Error " ++ toString resp.status ++ ": " ++ resp.body)) := by
    rw [handleResponse, if_pos hstatus]
  refine ⟨hr, ?_⟩
  obtain ⟨req, hreq⟩ := handleToolCall_known rt c name args hname
  unfold callTool
  rw [hreq]
  show (match handleResponse rt (rt.fetch req) with
    | Except.ok result =>
        ({ content := [⟨"text", stringifyPretty result⟩], isError := none } : ResultEnvelope)
    | Except.error e => mkErrorEnvelope e) = _
  rw [hfetch req, hr]
  rfl

theorem api_error_passthrough_witness :
    handleResponse ⟨fun _ => none, fun _ => "", fun _ => ⟨404, "not found"⟩⟩
        ⟨404, "not found"⟩ =
      .error (.err ("API Error " ++ toString (404 : Nat) ++ ": " ++ "not found")) ∧
    callTool ⟨fun _ => none, fun _ => "", fun _ => ⟨404, "not found"⟩⟩ ⟨"key"⟩
        "learningsuite_check_auth" [] =
      ⟨[⟨"text", "Error: " ++
          ("API Error " ++ toString (404 : Nat) ++ ": " ++ "not found")⟩],
        some true⟩ :=
  api_error_passthrough _ ⟨"key"⟩ ⟨404, "not found"⟩ "learningsuite_check_auth" []
    (by decide) (fun _ => rfl) (by decide)

/-- C7: a 2xx response with an empty body yields the empty object `{}` (and a
successful envelope), not a parse error; a 2xx response with a non-empty body
that fails to parse makes the call fail with the parser's thrown error — the
parse failure is not swallowed into a success. -/
theorem empty_body_and_parse_failure (rt : JsRuntime) (c : LearningSuiteClient)
    (resp : HttpResponse) (h2xx : 200 ≤ resp.status ∧ resp.status < 300) :
    (resp.body = "" → handleResponse rt resp = .ok (Json.objL [])) ∧
    (resp.body = "" → ∀ name args, name ∈ toolNames → (∀ r, rt.fetch r = resp) →
      callTool rt c name args =
        ⟨[⟨"text", stringifyPretty (Json.objL [])⟩], none⟩) ∧
    (resp.body ≠ "" → rt.parse resp.body = none →
      handleResponse rt resp = .error (.err (rt.parseErrMsg resp.body))) := by
  have hnb : ¬ (resp.status < 200 ∨ 300 ≤ resp.status) := by omega
  have hok : resp.body = "" → handleResponse rt resp = .ok (Json.objL []) := by
    intro hb
    rw [handleResponse, if_neg hnb, if_pos hb]
  refine ⟨hok, ?_, ?_⟩
  · intro hb name args hname hfetch
    obtain ⟨req, hreq⟩ := handleToolCall_known rt c name args hname
    unfold callTool
    rw [hreq]
    show (match handleResponse rt (rt.fetch req) with
      | Except.ok result =>
          ({ content := [⟨"text", stringifyPretty result⟩], isError := none } : ResultEnvelope)
      | Except.error e => mkErrorEnvelope e) = _
    rw [hfetch req, hok hb]
  · intro hb hp
    rw [handleResponse, if_neg hnb, if_neg hb, hp]

theorem empty_body_and_parse_failure_witness :
    callTool ⟨fun _ => none, fun _ => "", fun _ => ⟨204, ""⟩⟩ ⟨"key"⟩
        "learningsuite_list_members" [] =
      ⟨[⟨"text", stringifyPretty (Json.objL [])⟩], none⟩ ∧
    handleResponse ⟨fun _ => none, fun _ => "", fun _ => ⟨200, "!!"⟩⟩ ⟨200, "!!"⟩ =
      .error (.err ((fun _ => "") "!!")) :=
  ⟨(empty_body_and_parse_failure
      ⟨fun _ => none, fun _ => "", fun _ => ⟨204, ""⟩⟩ ⟨"key"⟩ ⟨204, ""⟩
      (by exact ⟨by norm_num, by norm_num⟩)).2.1 rfl "learningsuite_list_members" []
      (by decide) (fun _ => rfl),
   (empty_body_and_parse_failure
      ⟨fun _ => none, fun _ => "", fun _ => ⟨200, "!!"⟩⟩ ⟨"key"⟩ ⟨200, "!!"⟩
      (by exact ⟨by norm_num, by norm_num⟩)).2.2 (by decide) rfl⟩

/-- C9: `learningsuite_remove_member_from_courses` with `memberId = m` and
`courseIds = cs` issues exactly one DELETE request to `/members/<m>/courses`
(no query string) whose JSON body is exactly `{"courseIds": cs}` — the
memberId field does not appear in the body. -/
theorem remove_member_from_courses_request (rt : JsRuntime)
    (c : LearningSuiteClient) (args : List (String × Json)) (m : String)
    (cs : Json)
    (hm : lookupArg args "memberId" = some (Json.str m))
    (hcs : lookupArg args "courseIds" = some cs) :
    (∃ req, handleToolCall rt c "learningsuite_remove_member_from_courses" args =
        (handleResponse rt (rt.fetch req), [req]) ∧
      req.method = "DELETE" ∧
      req.url = BASE_URL ++ ("/members/" ++ m ++ "/courses") ∧
      req.body = some ("\x7b" ++ ("\"courseIds\":" ++ Json.serialize cs) ++ "\x7d")) ∧
    "memberId" ∉ ([("courseIds", some cs)] : JsObj).map Prod.fst := by
  have step : handleToolCall rt c "learningsuite_remove_member_from_courses" args =
      c.removeMemberFromCourses rt (interp (lookupArg args "memberId"))
        (lookupArg args "courseIds") := rfl
  rw [step, hm, hcs]
  exact ⟨⟨_, rfl, rfl, str_append_empty _, rfl⟩, by simp⟩

theorem remove_member_from_courses_request_witness :
    (∃ req, handleToolCall ⟨fun _ => none, fun _ => "", fun _ => ⟨200, ""⟩⟩ ⟨"key"⟩
        "learningsuite_remove_member_from_courses"
        [("memberId", Json.str "m1"),
         ("courseIds", Json.arrL [Json.str "c1", Json.str "c2"])] =
        (handleResponse ⟨fun _ => none, fun _ => "", fun _ => ⟨200, ""⟩⟩
          ((⟨fun _ => none, fun _ => "", fun _ => ⟨200, ""⟩⟩ : JsRuntime).fetch req),
         [req]) ∧
      req.method = "DELETE" ∧
      req.url = BASE_URL ++ ("/members/" ++ "m1" ++ "/courses") ∧
      req.body = some ("\x7b" ++
        ("\"courseIds\":" ++ Json.serialize (Json.arrL [Json.str "c1", Json.str "c2"])) ++
        "\x7d")) ∧
    "memberId" ∉
      ([("courseIds", some (Json.arrL [Json.str "c1", Json.str "c2"]))] : JsObj).map
        Prod.fst :=
  remove_member_from_courses_request _ _ _ "m1" _ rfl rfl

/-- C10: the dispatcher forwards the entire raw argument map — for
get_member_courses the whole map (memberId included) becomes the query map,
so the path parameter shows up again in the query string (concretely,
`{memberId: "m1", limit: 42}` yields
`GET /members/m1/courses?memberId=m1&limit=42`); for add_member_to_courses
the whole map (memberId included) becomes the JSON body. -/
theorem raw_args_passed_through (rt : JsRuntime) (c : LearningSuiteClient)
    (args : List (String × Json)) (m : String)
    (hm : lookupArg args "memberId" = some (Json.str m)) :
    (∃ req, handleToolCall rt c "learningsuite_get_member_courses" args =
        (handleResponse rt (rt.fetch req), [req]) ∧
      req.method = "GET" ∧ req.body = none ∧
      req.url = requestUrl ("/members/" ++ m ++ "/courses") (some (argsToObj args))) ∧
    (∃ req2, handleToolCall rt c "learningsuite_add_member_to_courses" args =
        (handleResponse rt (rt.fetch req2), [req2]) ∧
      req2.method = "PUT" ∧
      req2.body = some (stringifyBody (argsToObj args)) ∧
      "memberId" ∈ (argsToObj args).map Prod.fst) ∧
    ((handleToolCall rt c "learningsuite_get_member_courses"
        [("memberId", Json.str "m1"), ("limit", Json.num 42)]).2.map
      HttpRequest.url) =
      [BASE_URL ++ "/members/m1/courses?memberId=m1&limit=42"] := by
  have step1 : handleToolCall rt c "learningsuite_get_member_courses" args =
      c.getMemberCourses rt (interp (lookupArg args "memberId"))
        (some (argsToObj args)) := rfl
  have step2 : handleToolCall rt c "learningsuite_add_member_to_courses" args =
      c.addMemberToCourses rt (interp (lookupArg args "memberId"))
        (argsToObj args) := rfl
  refine ⟨?_, ?_, rfl⟩
  · rw [step1, hm]
    exact ⟨_, rfl, rfl, rfl, rfl⟩
  · rw [step2, hm]
    exact ⟨_, rfl, rfl, rfl, lookupArg_mem_keys hm⟩

theorem raw_args_passed_through_witness :
    ((handleToolCall ⟨fun _ => none, fun _ => "", fun _ => ⟨200, ""⟩⟩ ⟨"key"⟩
        "learningsuite_get_member_courses"
        [("memberId", Json.str "m1"), ("limit", Json.num 42)]).2.map
      HttpRequest.url) =
      [BASE_URL ++ "/members/m1/courses?memberId=m1&limit=42"] :=
  (raw_args_passed_through ⟨fun _ => none, fun _ => "", fun _ => ⟨200, ""⟩⟩ ⟨"key"⟩
    [("memberId", Json.str "m1"), ("limit", Json.num 42)] "m1" rfl).2.2
